import Mathlib

/-!
# Verification of the IBG dashboard's request-governing and polling/merge core

Shallow embedding of the request governor (`src/lib/solana.ts`:
`RequestQueue`, `retryWithBackoff`, `fetchWithRetry`,
`parseTransactionsWithHelius`, `getTokenMetadata`, `getTopHolders`,
`getWalletInfo`) and of the polling/merge store
(`src/unnamed/part_002`: `DataProvider`'s `fetchStaticData` and
`fetchTransactions`), together with theorems settling the frozen claims.

Conventions used throughout:
* JavaScript numbers are modelled as `ℚ` (no floating point enters any
  claim-relevant computation at the precision exercised here); integer
  counters and sizes are `ℕ`; clock times are `ℤ` milliseconds.
* JavaScript optional / possibly-`undefined` fields are `Option _`;
  the JS truthiness tests the source performs on them are modelled
  explicitly (empty string and `0` are falsy).
* Asynchronous upstream outcomes are passed in as explicit parameters
  (`Except`-valued results, or a function from call index to outcome),
  so every definition is an executable pure function of those outcomes.
* Fields of the source's record types that no claim reads (`events`,
  `accountData`, `meta`, `transaction`, `slot`, `blockTime`,
  `indexWithinBlock`, raw amounts) are omitted from the embedded records.
-/

/-! ## String utilities (JS `String.prototype.includes`) -/

/-- JS `s.includes(sub)`: case-sensitive substring test.  Used by
`retryWithBackoff` (`error.message?.includes("429")`,
`error.message?.includes("rate limit")`) and by
`parseTransactionsWithHelius` (`error.message?.includes("rate limit")`). -/
def strIncludes (s sub : String) : Bool :=
  s.toList.tails.any (fun t => sub.toList.isPrefixOf t)

/-! ## Domain record types (`src/lib/solana.ts` interfaces) -/

/-- `TokenTransfer` (solana.ts lines 154-166), claim-relevant fields. -/
structure TokenTransfer where
  fromUserAccount : Option String
  toUserAccount : Option String
  mint : String
  tokenAmount : ℚ
deriving DecidableEq, Repr

/-- `NativeTransfer` (solana.ts lines 168-172). -/
structure NativeTransfer where
  fromUserAccount : Option String
  toUserAccount : Option String
  amount : ℚ
deriving DecidableEq, Repr

/-- `EnhancedTokenTransaction` (solana.ts lines 180-231), claim-relevant
fields.  `description`, `type` and `source` are optional in the source
interface. -/
structure Etx where
  signature : String
  timestamp : ℚ
  fee : ℚ
  feePayer : String
  description : Option String
  type : Option String
  source : Option String
  tokenTransfers : List TokenTransfer
  nativeTransfers : List NativeTransfer
deriving DecidableEq, Repr

/-- `TopHolder` (solana.ts lines 233-237). -/
structure TopHolder where
  address : String
  amount : ℚ
  percentage : ℚ
deriving DecidableEq, Repr

/-- `RewardMetrics` (solana.ts lines 258-263). -/
structure RewardMetrics where
  totalRewardPool : ℚ
  distributionPercentage : ℚ
  totalTransactions : ℕ
  nextDistributionTime : ℤ
deriving DecidableEq, Repr

/-- `TokenSupply` (solana.ts lines 265-269). -/
structure TokenSupply where
  totalSupply : ℚ
  circulatingSupply : ℚ
  burnedSupply : ℚ
deriving DecidableEq, Repr

/-- `TokenMetadata` (solana.ts lines 17-25). -/
structure TokenMetadata where
  name : String
  symbol : String
  decimals : ℕ
  description : Option String
  website : Option String
  logoURI : Option String
  tags : Option (List String)
deriving DecidableEq, Repr

/-- `JPG_TOKEN_MINT.toString()` (solana.ts lines 4-6). -/
def JPG_MINT_STR : String := "DZJefTBdJ2Ui2YB1bWgi6Bv1TPPVZJMrvGrbCDjtjups"

/-! ## Retry policy (`retryWithBackoff`, solana.ts lines 324-351) -/

/-- The rate-limit classifier of `retryWithBackoff` (solana.ts lines
336-339): `error.message?.includes("429") ||
error.message?.includes("rate limit")`. -/
def isRateLimitError (msg : String) : Bool :=
  strIncludes msg "429" || strIncludes msg "rate limit"

/-- The error message thrown by `fetchWithRetry` and `rpcCall` when the
HTTP response status is 429 (solana.ts lines 366-369 and 399-402):
`throw new Error("Rate limit exceeded")`. -/
def fetch429Message : String := "Rate limit exceeded"

/-- Wait before the next retry, computed by `retryWithBackoff` for the
failure of attempt `i` (0-based; solana.ts lines 335-347):
rate-limit-classified errors wait `baseDelay * 2^i + jitter` with
`jitter = Math.random() * 1000 ∈ [0, 1000)`, all other errors wait a
flat `baseDelay`. -/
def backoffWaitMs (baseDelay : ℕ) (i : ℕ) (jitter : ℕ) (msg : String) : ℕ :=
  if isRateLimitError msg then baseDelay * 2 ^ i + jitter else baseDelay

/-- The loop of `retryWithBackoff` (solana.ts lines 329-350), starting at
iteration `i`.  `f j` is the outcome of the `(j+1)`-th invocation of the
wrapped operation.  Returns the final outcome paired with the number of
invocations performed from iteration `i` on; `Except.error none` models
the unreachable trailing `throw new Error("Max retries exceeded")`. -/
def retryLoop {A : Type} (f : ℕ → Except String A) (maxRetries : ℕ) (i : ℕ) :
    Except (Option String) A × ℕ :=
  if _h : i < maxRetries then
    match f i with
    | Except.ok a => (Except.ok a, 1)
    | Except.error e =>
      if i = maxRetries - 1 then (Except.error (some e), 1)
      else
        let r := retryLoop f maxRetries (i + 1)
        (r.1, r.2 + 1)
  else
    (Except.error none, 0)
termination_by maxRetries - i
decreasing_by simp_wf; omega

/-- `retryWithBackoff fn maxRetries` (solana.ts lines 324-351): the loop
started at `i = 0`. -/
def retryWithBackoff {A : Type} (f : ℕ → Except String A) (maxRetries : ℕ) :
    Except (Option String) A × ℕ :=
  retryLoop f maxRetries 0

/-- C1 — The rate-limit classification and the backoff formula.
The claim says an HTTP 429 failure is classified as rate-limiting and
waits `baseDelay * 2^i + jitter`.  The code's own 429 path throws
`Error("Rate limit exceeded")`, whose message contains neither `"429"`
nor (case-sensitively) `"rate limit"`, so `retryWithBackoff` does not
classify it as rate-limiting and waits the flat `baseDelay` instead —
while a message that does contain the lowercase marker gets the
exponential wait the claim describes. -/
theorem c1_rate_limit_classification_bug :
    isRateLimitError fetch429Message = false
    ∧ backoffWaitMs 2000 0 999 fetch429Message = 2000
    ∧ backoffWaitMs 2000 2 999 fetch429Message = 2000
    ∧ isRateLimitError "rate limit exceeded" = true
    ∧ backoffWaitMs 2000 2 999 "rate limit exceeded" = 2000 * 2 ^ 2 + 999
    ∧ isRateLimitError "HTTP error! status: 429" = true := by
  decide

/-- C2 — An operation that fails on every attempt is attempted exactly
`maxRetries` times, and the final outcome is the last attempt's error.
`e j` is the error of the `(j+1)`-th attempt. -/
theorem c2_retry_bound {A : Type} (f : ℕ → Except String A) (e : ℕ → String)
    (maxRetries : ℕ) (hmr : 1 ≤ maxRetries)
    (hf : ∀ j, j < maxRetries → f j = Except.error (e j)) :
    retryWithBackoff f maxRetries =
      (Except.error (some (e (maxRetries - 1))), maxRetries) := by
  have key : ∀ n i, n = maxRetries - i → i < maxRetries →
      retryLoop f maxRetries i =
        (Except.error (some (e (maxRetries - 1))), maxRetries - i) := by
    intro n
    induction n with
    | zero => intro i h1 h2; omega
    | succ k ih =>
      intro i h1 h2
      rw [retryLoop]
      simp only [h2, dif_pos, hf i h2]
      by_cases hlast : i = maxRetries - 1
      · subst hlast
        simp only [if_pos rfl, if_true, Prod.mk.injEq, true_and]
        omega
      · rw [if_neg hlast]
        have hi1 : i + 1 < maxRetries := by omega
        rw [ih (i + 1) (by omega) hi1]
        simp only [Prod.mk.injEq, true_and]
        omega
  have h0 : 0 < maxRetries := hmr
  have := key (maxRetries - 0) 0 rfl h0
  simpa [retryWithBackoff] using this

/-- Witness for C2 at the default `maxRetries = 3`: three attempts, and
the caller's handle rejects with the third attempt's error. -/
theorem c2_retry_bound_witness :
    retryWithBackoff (A := Unit) (fun j => Except.error (toString j)) 3 =
      (Except.error (some "2"), 3) :=
  c2_retry_bound (fun j => Except.error (toString j)) (fun j => toString j) 3
    (by omega) (fun _ _ => rfl)

/-! ## Request queue (`RequestQueue`, solana.ts lines 275-320)

`add` (lines 285-290) runs a `Promise` executor synchronously: it pushes
`{fn, resolve, reject}` onto `this.queue` and then calls
`this.process()`.  `process` (lines 292-319) is an `async` method, so
its body runs synchronously up to its first `await`: the
`processing`/empty-queue early return, `processing = true`,
`queue.splice(0, batchSize)`, and `batch.map(async ({fn, ...}) => {
... await fn() ... })` — each mapped `async` closure runs synchronously
up to `await fn()`, which *evaluates* `fn()` synchronously.  The first
suspension is `await Promise.all(promises)`.  Hence the operations of
the first drained batch are started synchronously inside the `add`
call whenever no drain is already running. -/

/-- State of the `RequestQueue` singleton: the pending operations
(identified by opaque ids, queue order preserved) and the
`processing` drain-guard flag. -/
structure QueueState where
  queue : List ℕ
  processing : Bool
deriving DecidableEq, Repr

/-- `batchSize = 5` (solana.ts line 282). -/
def queueBatchSize : ℕ := 5

/-- The ids of the operations whose execution `process()` starts during
its synchronous prefix (up to its first `await`): none if a drain is
already running or the queue is empty; otherwise the first
`batchSize` queued operations (`queue.splice(0, this.batchSize)`
followed by the synchronous start of each mapped `fn()`). -/
def processSyncStartedOps (s : QueueState) : List ℕ :=
  if s.processing || s.queue.isEmpty then []
  else s.queue.take queueBatchSize

/-- The ids of the operations started synchronously inside `add(fn)`
called in state `s` with a fresh operation id `op`:
`add` pushes `op` and then synchronously calls `process()`. -/
def addSyncStartedOps (s : QueueState) (op : ℕ) : List ℕ :=
  processSyncStartedOps { s with queue := s.queue ++ [op] }

/-- The queue contents right after `add`'s push. -/
def addQueueAfterPush (s : QueueState) (op : ℕ) : List ℕ :=
  s.queue ++ [op]

/-- C4 counterexample — submitting to an idle governor (no drain running,
empty queue) starts the submitted operation synchronously inside the
`add` call itself, refuting "the operation is never executed
synchronously or immediately during the submit call". -/
theorem c4_submit_sync_counterexample :
    addSyncStartedOps ⟨[], false⟩ 0 = [0] := by
  decide

/-- C4 (amended) — the operation is appended to the internal queue, and
it is started synchronously inside the submit call exactly when no
drain loop is already running and it falls into the first batch
(fewer than `batchSize` operations were queued ahead of it); in
particular, while a drain is running, submit starts nothing. -/
theorem c4_submit_queueing (s : QueueState) (op : ℕ) (hfresh : op ∉ s.queue) :
    addQueueAfterPush s op = s.queue ++ [op]
    ∧ (s.processing = true → addSyncStartedOps s op = [])
    ∧ (op ∈ addSyncStartedOps s op ↔
        s.processing = false ∧ s.queue.length < queueBatchSize) := by
  have hchar : addSyncStartedOps s op =
      if s.processing then [] else (s.queue ++ [op]).take queueBatchSize := by
    unfold addSyncStartedOps processSyncStartedOps
    cases hp : s.processing with
    | true => simp
    | false => simp
  refine ⟨rfl, ?_, ?_⟩
  · intro hp
    rw [hchar, hp, if_pos rfl]
  · rw [hchar]
    cases hp : s.processing with
    | true => simp
    | false =>
      simp only [if_false, Bool.false_eq_true, eq_self_iff_true, true_and]
      constructor
      · intro hmem
        by_contra hge
        push_neg at hge
        rw [List.take_append_of_le_length hge] at hmem
        exact hfresh (List.take_subset _ _ hmem)
      · intro hlt
        have hle : (s.queue ++ [op]).length ≤ queueBatchSize := by
          simp only [List.length_append, List.length_singleton]
          omega
        rw [List.take_of_length_le hle]
        exact List.mem_append_right _ (List.mem_singleton.mpr rfl)

/-- Witness for C4 (amended) at a concrete state: with a drain already
running and two operations queued ahead, the freshly submitted
operation `7` is queued but not started synchronously. -/
theorem c4_submit_queueing_witness :
    (7 : ℕ) ∉ [1, 2] ∧ addSyncStartedOps ⟨[1, 2], true⟩ 7 = [] :=
  ⟨by decide, (c4_submit_queueing ⟨[1, 2], true⟩ 7 (by decide)).2.1 rfl⟩

/-! ## Polling/merge store (`DataProvider`, src/unnamed/part_002) -/

/-- The reactive state held by `DataProvider` (part_002 lines 38-48):
`metrics`, `supply`, `holders`, `transactions`, `tokenMetadata`,
`loading`, `error` (the `Error` object is modelled by its message). -/
structure StoreState where
  metrics : Option RewardMetrics
  supply : Option TokenSupply
  holders : List TopHolder
  transactions : List Etx
  tokenMetadata : Option TokenMetadata
  loading : Bool
  error : Option String
deriving DecidableEq, Repr

/-- The four values fetched concurrently by `fetchStaticData`'s
`Promise.all` (part_002 lines 54-60). -/
structure StaticFetch where
  metrics : RewardMetrics
  supply : TokenSupply
  holders : List TopHolder
  tokenMetadata : TokenMetadata
deriving DecidableEq, Repr

/-- The continuation of `fetchStaticData` after its `await Promise.all`
(part_002 lines 61-72): on success the four setters plus
`setLoading(false)` run; on failure only `setError` and
`setLoading(false)` run.  Note the source performs no `isMounted`
check anywhere on this path. -/
def staticResultUpdate (s : StoreState) (r : Except String StaticFetch) :
    StoreState :=
  match r with
  | Except.ok v =>
    { s with metrics := some v.metrics, supply := some v.supply,
             holders := v.holders, tokenMetadata := some v.tokenMetadata,
             loading := false }
  | Except.error e => { s with error := some e, loading := false }

/-- One whole `fetchStaticData` cycle (part_002 lines 51-73):
`setError(null)` runs synchronously before the awaited fetch, then the
post-await continuation applies the fetch outcome `r`. -/
def fetchStaticData (s : StoreState) (r : Except String StaticFetch) :
    StoreState :=
  staticResultUpdate { s with error := none } r

/-- C5 — Atomic snapshot replacement: a failed static refresh leaves all
four snapshot fields exactly as they were, and a successful one
replaces all four with the freshly fetched values together. -/
theorem c5_static_snapshot_atomic :
    (∀ (s : StoreState) (e : String),
      (fetchStaticData s (Except.error e)).metrics = s.metrics
      ∧ (fetchStaticData s (Except.error e)).supply = s.supply
      ∧ (fetchStaticData s (Except.error e)).holders = s.holders
      ∧ (fetchStaticData s (Except.error e)).tokenMetadata = s.tokenMetadata)
    ∧ (∀ (s : StoreState) (v : StaticFetch),
      (fetchStaticData s (Except.ok v)).metrics = some v.metrics
      ∧ (fetchStaticData s (Except.ok v)).supply = some v.supply
      ∧ (fetchStaticData s (Except.ok v)).holders = v.holders
      ∧ (fetchStaticData s (Except.ok v)).tokenMetadata = some v.tokenMetadata) := by
  exact ⟨fun s e => ⟨rfl, rfl, rfl, rfl⟩, fun s v => ⟨rfl, rfl, rfl, rfl⟩⟩

/-- Signatures of a window, in order. -/
def sigs (l : List Etx) : List String := l.map Etx.signature

/-- JS truthiness of an optional string: `undefined` and `""` are falsy. -/
def truthyStr : Option String → Bool
  | none => false
  | some s => !(s == "")

/-- First merge filter (part_002 lines 103-107): keep transactions with
`(tx.tokenTransfers && tx.tokenTransfers.length > 0) ||
(tx.nativeTransfers && tx.nativeTransfers.length > 0)` (both arrays are
always present, so only the length tests matter). -/
def hasTransferData (tx : Etx) : Bool :=
  !tx.tokenTransfers.isEmpty || !tx.nativeTransfers.isEmpty

/-- Second merge filter (part_002 lines 108-116): keep transactions with
`tx.type !== "UNKNOWN" && tx.type && tx.description &&
tx.description.trim() !== ""`. -/
def typeDescOk (tx : Etx) : Bool :=
  (tx.type != some "UNKNOWN") && truthyStr tx.type
    && truthyStr tx.description
    && !((tx.description.getD "").trim == "")

/-- The genuinely-new meaningful transactions of a poll (part_002 lines
96-116): drop signatures already held, then apply both filters. -/
def validNewTransactions (prev txs : List Etx) : List Etx :=
  ((txs.filter (fun tx => !((sigs prev).contains tx.signature))).filter
      hasTransferData).filter
    typeDescOk

/-- The `setTransactions` updater of `fetchTransactions` (part_002 lines
94-125): if no valid new transactions, the previous window is returned
unchanged (`return prev;` — no redundant re-render); otherwise the new
ones are prepended and the window is truncated to 50. -/
def mergeTransactions (prev txs : List Etx) : List Etx :=
  let v := validNewTransactions prev txs
  if v.isEmpty then prev else (v ++ prev).take 50

/-- `validNewTransactions prev txs` is a sublist of the poll result. -/
theorem validNew_sublist (prev txs : List Etx) :
    List.Sublist (validNewTransactions prev txs) txs :=
  ((List.filter_sublist _).trans (List.filter_sublist _)).trans
    (List.filter_sublist _)

/-- Every valid new transaction comes from the poll result and carries a
signature not already held. -/
theorem validNew_mem (prev txs : List Etx) (tx : Etx)
    (h : tx ∈ validNewTransactions prev txs) :
    tx ∈ txs ∧ tx.signature ∉ sigs prev := by
  unfold validNewTransactions at h
  have h1 := List.mem_filter.mp h
  have h2 := List.mem_filter.mp h1.1
  have h3 := List.mem_filter.mp h2.1
  refine ⟨h3.1, ?_⟩
  intro hmem
  have : (sigs prev).contains tx.signature = true :=
    List.elem_eq_true_of_mem hmem
  rw [this] at h3
  exact absurd h3.2 (by decide)

/-- Taking a prefix of a list commutes with `filter` up to taking some
prefix of the filtered list. -/
theorem filter_take_ex {α : Type} (p : α → Bool) :
    ∀ (n : ℕ) (l : List α), ∃ k, (l.take n).filter p = (l.filter p).take k := by
  intro n l
  induction l generalizing n with
  | nil => exact ⟨0, by simp⟩
  | cons a l ih =>
    cases n with
    | zero => exact ⟨0, by simp⟩
    | succ m =>
      obtain ⟨k, hk⟩ := ih m
      by_cases hp : p a
      · exact ⟨k + 1, by simp [hp, hk]⟩
      · exact ⟨k, by simp [hp, hk]⟩

/-- The C3 merge contract, for a window `prev` and a poll result `txs`:
no duplicate signatures, cap of 50, new-records-prepended shape, only
genuinely-new records added, previously held entries kept in order
(the held entries of the merged window form an initial segment of
`prev`), and no state change on an empty effective poll. -/
def MergeSpec (prev txs : List Etx) : Prop :=
  (sigs (mergeTransactions prev txs)).Nodup
  ∧ (mergeTransactions prev txs).length ≤ 50
  ∧ mergeTransactions prev txs = (validNewTransactions prev txs ++ prev).take 50
  ∧ (∀ tx ∈ validNewTransactions prev txs, tx ∈ txs ∧ tx.signature ∉ sigs prev)
  ∧ (∃ k, (mergeTransactions prev txs).filter
        (fun tx => (sigs prev).contains tx.signature) = prev.take k)
  ∧ (validNewTransactions prev txs = [] → mergeTransactions prev txs = prev)

/-- C3 — Transaction-poll merge: for a well-formed window (no duplicate
signatures, within the cap) and a poll result with pairwise-distinct
signatures, the merge satisfies the whole `MergeSpec` contract. -/
theorem c3_merge_window (prev txs : List Etx)
    (hprev : (sigs prev).Nodup) (htxs : (sigs txs).Nodup)
    (hlen : prev.length ≤ 50) : MergeSpec prev txs := by
  set v := validNewTransactions prev txs with hv
  have hmerge : mergeTransactions prev txs = (v ++ prev).take 50 := by
    unfold mergeTransactions
    rw [← hv]
    by_cases he : v.isEmpty
    · rw [if_pos he]
      rw [List.isEmpty_iff] at he
      rw [he, List.nil_append, List.take_of_length_le hlen]
    · rw [if_neg he]
  have hvmem : ∀ tx ∈ v, tx ∈ txs ∧ tx.signature ∉ sigs prev :=
    fun tx htx => validNew_mem prev txs tx htx
  have hnodup : (sigs (mergeTransactions prev txs)).Nodup := by
    rw [hmerge]
    have hsub : List.Sublist (sigs ((v ++ prev).take 50)) (sigs (v ++ prev)) :=
      (List.take_sublist 50 (v ++ prev)).map Etx.signature
    have happ : (sigs (v ++ prev)).Nodup := by
      unfold sigs
      rw [List.map_append]
      refine List.Nodup.append ?_ hprev ?_
      · exact ((validNew_sublist prev txs).map Etx.signature).nodup htxs
      · intro a hav hap
        obtain ⟨tx, htx, rfl⟩ := List.mem_map.mp hav
        exact (hvmem tx htx).2 hap
    exact happ.sublist hsub
  have hfilter : ∃ k, (mergeTransactions prev txs).filter
      (fun tx => (sigs prev).contains tx.signature) = prev.take k := by
    rw [hmerge]
    obtain ⟨k, hk⟩ :=
      filter_take_ex (fun tx => (sigs prev).contains tx.signature) 50 (v ++ prev)
    refine ⟨k, ?_⟩
    rw [hk, List.filter_append]
    have hvnil : v.filter (fun tx => (sigs prev).contains tx.signature) = [] := by
      rw [List.filter_eq_nil_iff]
      intro tx htx hcont
      exact (hvmem tx htx).2 (List.mem_of_elem_eq_true hcont)
    have hpself : prev.filter (fun tx => (sigs prev).contains tx.signature) =
        prev := by
      rw [List.filter_eq_self]
      intro tx htx
      exact List.elem_eq_true_of_mem (List.mem_map_of_mem Etx.signature htx)
    rw [hvnil, hpself, List.nil_append]
  refine ⟨hnodup, ?_, hmerge, hvmem, hfilter, ?_⟩
  · rw [hmerge]
    exact (List.length_take 50 (v ++ prev)).le.trans (min_le_left _ _)
  · intro hempty
    unfold mergeTransactions
    simp [hv, hempty]

/-- A concrete transaction already held by the window. -/
def cexHeld : Etx :=
  { signature := "sig-held", timestamp := 1000, fee := 5000,
    feePayer := "payer1", description := some "held swap",
    type := some "SWAP", source := some "JUPITER",
    tokenTransfers := [], nativeTransfers := [⟨some "x", some "y", 1⟩] }

/-- A concrete meaningful transaction arriving in a poll. -/
def cexNew : Etx :=
  { signature := "sig-new", timestamp := 2000, fee := 5000,
    feePayer := "payer2", description := some "new transfer",
    type := some "TRANSFER", source := some "SYSTEM_PROGRAM",
    tokenTransfers := [], nativeTransfers := [⟨some "a", some "b", 2⟩] }

/-- Witness for C3 at a concrete window and poll result. -/
theorem c3_merge_window_witness :
    (sigs [cexHeld]).Nodup ∧ (sigs [cexNew]).Nodup
    ∧ [cexHeld].length ≤ 50 ∧ MergeSpec [cexHeld] [cexNew] :=
  ⟨by decide, by decide, by decide,
    c3_merge_window [cexHeld] [cexNew] (by decide) (by decide) (by decide)⟩

/-! ## Teardown behaviour (part_002 lines 76-163)

Both `useEffect` cleanups cancel their timers (`clearInterval`, lines
152-155 and 162).  `fetchTransactions` checks the `isMounted` flag
after its `await` (line 92) and in its catch handler (line 136) before
touching state.  `fetchStaticData` (lines 51-73) performs no such
check: its post-`await` setters run whether or not the provider is
still mounted. -/

/-- Post-`await` continuation of `fetchTransactions` on success
(part_002 lines 92-134), given the `isMounted` flag at arrival time:
guarded by `if (!isMounted) return;`. -/
def applyTxPollResult (isMounted isInitial : Bool) (s : StoreState)
    (txs : List Etx) : StoreState :=
  if !isMounted then s
  else
    let s1 := { s with transactions := mergeTransactions s.transactions txs }
    if isInitial then { s1 with loading := false } else s1

/-- Catch handler of `fetchTransactions` (part_002 lines 135-143), also
guarded by `if (!isMounted) return;`. -/
def applyTxPollError (isMounted isInitial : Bool) (s : StoreState)
    (e : String) : StoreState :=
  if !isMounted then s
  else if isInitial then { s with error := some e, loading := false }
  else { s with error := some e }

/-- The state updates applied when a static-refresh response arrives,
given the `isMounted` flag at arrival time.  `fetchStaticData` contains
no still-mounted guard, so its updates are applied regardless of the
flag (the parameter is unused, mirroring the source). -/
def lateStaticUpdate (_isMounted : Bool) (s : StoreState)
    (r : Except String StaticFetch) : StoreState :=
  staticResultUpdate s r

/-- The store state as initialized by `DataProvider` (part_002 lines
38-48): empty data, `loading = true`, no error. -/
def initialStoreState : StoreState :=
  { metrics := none, supply := none, holders := [], transactions := [],
    tokenMetadata := none, loading := true, error := none }

/-- C6 — After teardown, the transaction-poll paths ignore late
responses (both success and failure), but a late static-refresh
response still mutates state: `fetchStaticData` has no still-mounted
guard, so its setters run on the unmounted provider. -/
theorem c6_unmounted_static_update_bug :
    applyTxPollResult false false initialStoreState [cexNew] = initialStoreState
    ∧ applyTxPollError false true initialStoreState "late" = initialStoreState
    ∧ lateStaticUpdate false initialStoreState (Except.error "late")
        ≠ initialStoreState
    ∧ (lateStaticUpdate false initialStoreState (Except.error "late")).error
        = some "late" := by
  refine ⟨rfl, rfl, ?_, rfl⟩
  intro h
  have := congrArg StoreState.error h
  simp [lateStaticUpdate, staticResultUpdate, initialStoreState] at this

/-! ## Batch transaction parsing (`parseTransactionsWithHelius`,
solana.ts lines 452-557) -/

/-- One raw parsed-transaction object as returned by the upstream
`POST /v0/transactions` endpoint; every field the mapping reads may be
absent. -/
structure RawTx where
  signature : Option String
  timestamp : ℚ
  fee : Option ℚ
  feePayer : Option String
  description : Option String
  type : Option String
  source : Option String
  tokenTransfers : Option (List TokenTransfer)
  nativeTransfers : Option (List NativeTransfer)
deriving DecidableEq, Repr

/-- JS `a || d` for an optional string: `undefined` and `""` give `d`. -/
def jsOrStr : Option String → String → String
  | none, d => d
  | some s, d => if s = "" then d else s

/-- JS `a || d` for an optional number: `undefined` and `0` give `d`. -/
def jsOrQ : Option ℚ → ℚ → ℚ
  | none, d => d
  | some q, d => if q = 0 then d else q

/-- Processing of one sub-batch response body (solana.ts lines 501-523):
`data.filter(tx => tx && tx.signature).map(...)` with the defaults of
the mapping (`fee || 0`, `feePayer || ""`, `description || ""`,
`type || "UNKNOWN"`, `source || "UNKNOWN"`, `tokenTransfers || []`,
`nativeTransfers || []`, `timestamp * 1000`).  A `none` list element is
a `null` response entry. -/
def heliusParseBatch (data : List (Option RawTx)) : List Etx :=
  data.filterMap fun item =>
    match item with
    | none => none
    | some raw =>
      match raw.signature with
      | none => none
      | some s =>
        if s = "" then none
        else
          some { signature := s,
                 timestamp := raw.timestamp * 1000,
                 fee := jsOrQ raw.fee 0,
                 feePayer := jsOrStr raw.feePayer "",
                 description := some (jsOrStr raw.description ""),
                 type := some (jsOrStr raw.type "UNKNOWN"),
                 source := some (jsOrStr raw.source "UNKNOWN"),
                 tokenTransfers := raw.tokenTransfers.getD [],
                 nativeTransfers := raw.nativeTransfers.getD [] }

/-- Outcome of one sub-batch call (the `try` body, solana.ts lines
467-533): a parsed JSON array, a non-array body
(`!Array.isArray(data)` → `continue`), or a thrown error carrying its
message. -/
inductive BatchOutcome where
  | arr (data : List (Option RawTx))
  | notArray
  | err (msg : String)
deriving DecidableEq, Repr

/-- `signatures.slice(i, i + batchSize)` chunking with `batchSize = 3`
(solana.ts lines 461-465). -/
def chunks3 : List String → List (List String)
  | [] => []
  | [a] => [[a]]
  | [a, b] => [[a, b]]
  | a :: b :: c :: rest => [a, b, c] :: chunks3 rest

/-- The sub-batch loop of `parseTransactionsWithHelius` (solana.ts lines
464-547).  `outcome j` is the result of the call for the `(j+1)`-th
sub-batch.  On a thrown error the loop stops early only when the
message contains (case-sensitively) `"rate limit"` (line 539);
otherwise it continues with the next sub-batch.  Successfully parsed
records accumulate in `acc` (`results.push(...)`). -/
def parseLoop (outcome : ℕ → BatchOutcome) :
    List (List String) → ℕ → List Etx → List Etx
  | [], _, acc => acc
  | _b :: rest, j, acc =>
    match outcome j with
    | BatchOutcome.arr data => parseLoop outcome rest (j + 1) (acc ++ heliusParseBatch data)
    | BatchOutcome.notArray => parseLoop outcome rest (j + 1) acc
    | BatchOutcome.err msg =>
      if strIncludes msg "rate limit" then acc
      else parseLoop outcome rest (j + 1) acc

/-- `parseTransactionsWithHelius(signatures)` (solana.ts lines 452-557):
empty input short-circuits to `[]`; otherwise the sequential sub-batch
loop runs over the size-3 chunks. -/
def parseTransactionsWithHelius (signatures : List String)
    (outcome : ℕ → BatchOutcome) : List Etx :=
  if signatures.isEmpty then [] else parseLoop outcome (chunks3 signatures) 0 []

/-- A simple raw parsed transaction with signature `s`. -/
def mkRaw (s : String) : RawTx :=
  { signature := some s, timestamp := 1, fee := some 1, feePayer := some "p",
    description := some "d", type := some "TRANSFER", source := some "SRC",
    tokenTransfers := some [],
    nativeTransfers := some [⟨some "a", some "b", 1⟩] }

/-- The record `mkRaw s` is mapped to by `heliusParseBatch`. -/
def mkParsed (s : String) : Etx :=
  { signature := s, timestamp := 1 * 1000, fee := 1, feePayer := "p",
    description := some "d", type := some "TRANSFER", source := some "SRC",
    tokenTransfers := [],
    nativeTransfers := [⟨some "a", some "b", 1⟩] }

/-- Seven signatures, hence sub-batches `[s1,s2,s3]`, `[s4,s5,s6]`,
`[s7]`. -/
def sigs7 : List String := ["s1", "s2", "s3", "s4", "s5", "s6", "s7"]

/-- Sub-batch outcomes: first two succeed, third fails with a
non-rate-limit error. -/
def outcomeA : ℕ → BatchOutcome
  | 0 => BatchOutcome.arr [some (mkRaw "s1"), some (mkRaw "s2"), some (mkRaw "s3")]
  | 1 => BatchOutcome.arr [some (mkRaw "s4"), some (mkRaw "s5"), some (mkRaw "s6")]
  | 2 => BatchOutcome.err "HTTP error! status: 500"
  | _ => BatchOutcome.notArray

/-- Sub-batch outcomes: the second sub-batch fails with the exact
message the code's own 429 handling produces (`fetchWithRetry` throws
`Error("Rate limit exceeded")` after exhausting retries on a 429), the
third succeeds. -/
def outcomeB : ℕ → BatchOutcome
  | 0 => BatchOutcome.arr [some (mkRaw "s1"), some (mkRaw "s2"), some (mkRaw "s3")]
  | 1 => BatchOutcome.err fetch429Message
  | 2 => BatchOutcome.arr [some (mkRaw "s7")]
  | _ => BatchOutcome.notArray

/-- Like `outcomeB` but with a lowercase message that does match the
loop's `includes("rate limit")` check. -/
def outcomeC : ℕ → BatchOutcome
  | 0 => BatchOutcome.arr [some (mkRaw "s1"), some (mkRaw "s2"), some (mkRaw "s3")]
  | 1 => BatchOutcome.err "rate limit exceeded"
  | 2 => BatchOutcome.arr [some (mkRaw "s7")]
  | _ => BatchOutcome.notArray

/-- C7 — Partial results and the early-stop check.  A non-rate-limit
failure of the third sub-batch still yields the 6 records of the first
two sub-batches (the claim's first half holds).  But a sub-batch that
fails from actual rate limiting carries the message
`"Rate limit exceeded"`, which the case-sensitive
`includes("rate limit")` check does not match, so the loop does NOT
stop early: it continues into the third sub-batch (4 records instead
of the 3 accumulated so far).  Only a lowercase message would stop it. -/
theorem c7_partial_results_and_early_stop_bug :
    parseTransactionsWithHelius sigs7 outcomeA =
      [mkParsed "s1", mkParsed "s2", mkParsed "s3",
       mkParsed "s4", mkParsed "s5", mkParsed "s6"]
    ∧ parseTransactionsWithHelius sigs7 outcomeB =
      [mkParsed "s1", mkParsed "s2", mkParsed "s3", mkParsed "s7"]
    ∧ parseTransactionsWithHelius sigs7 outcomeC =
      [mkParsed "s1", mkParsed "s2", mkParsed "s3"]
    ∧ strIncludes fetch429Message "rate limit" = false :=
  ⟨rfl, rfl, rfl, by decide⟩

/-! ## Wallet metrics (`getWalletInfo`, solana.ts lines 868-1074) -/

/-- The wallet-involvement filter (solana.ts lines 978-991): the wallet
is fee payer, or a party to any token transfer, or a party to any
native transfer. -/
def involvesWallet (address : String) (tx : Etx) : Bool :=
  tx.feePayer == address
    || tx.tokenTransfers.any (fun t =>
        t.fromUserAccount == some address || t.toUserAccount == some address)
    || tx.nativeTransfers.any (fun t =>
        t.fromUserAccount == some address || t.toUserAccount == some address)

/-- `walletTransactions` (solana.ts lines 978-991). -/
def walletTransactions (address : String) (txs : List Etx) : List Etx :=
  txs.filter (involvesWallet address)

/-- The JPG-transaction filter (solana.ts lines 995-999): any token
transfer of the tracked mint. -/
def isJpgTransaction (tx : Etx) : Bool :=
  tx.tokenTransfers.any (fun t => t.mint == JPG_MINT_STR)

/-- `jpgTransactions` (solana.ts lines 995-999). -/
def jpgTransactions (txs : List Etx) : List Etx :=
  txs.filter isJpgTransaction

/-- Sum of absolute tracked-token transfer amounts within one
transaction (solana.ts lines 1013-1023 inner loop). -/
def txJpgVolume (tx : Etx) : ℚ :=
  ((tx.tokenTransfers.filter (fun t => t.mint == JPG_MINT_STR)).map
      (fun t => |t.tokenAmount|)).sum

/-- `totalVolume` (solana.ts lines 1009-1023): sum of absolute
tracked-token transfer amounts over the JPG transactions. -/
def totalVolume (txs : List Etx) : ℚ :=
  ((jpgTransactions txs).map txJpgVolume).sum

/-- `averageTransactionSize` (solana.ts lines 1025-1026):
`totalTransactions > 0 ? totalVolume / totalTransactions : 0`, where
`totalTransactions = walletTransactions.length` counts ALL
wallet-involving transactions. -/
def averageTransactionSize (address : String) (txs : List Etx) : ℚ :=
  let n := (walletTransactions address txs).length
  if 0 < n then totalVolume txs / n else 0

/-- Modelled from the claim's words, for comparison with the code's
computation: the tracked-token volume averaged over the tracked-token
transfers themselves. -/
def claimAverageTransferSize (txs : List Etx) : ℚ :=
  let transfers :=
    (txs.map (fun tx => tx.tokenTransfers.filter
        (fun t => t.mint == JPG_MINT_STR))).flatten
  if 0 < transfers.length then
    ((transfers.map (fun t => |t.tokenAmount|)).sum) / transfers.length
  else 0

/-- A transaction of wallet `W` with a single tracked-token transfer of
10 tokens. -/
def cexJpgTx : Etx :=
  { signature := "w1", timestamp := 0, fee := 0, feePayer := "W",
    description := some "jpg transfer", type := some "TRANSFER",
    source := none,
    tokenTransfers := [⟨some "W", some "X", JPG_MINT_STR, 10⟩],
    nativeTransfers := [] }

/-- A transaction of wallet `W` with no tracked-token transfers. -/
def cexOtherTx : Etx :=
  { signature := "w2", timestamp := 0, fee := 0, feePayer := "W",
    description := some "sol transfer", type := some "TRANSFER",
    source := none, tokenTransfers := [],
    nativeTransfers := [⟨some "W", some "Y", 1⟩] }

/-- C8 counterexample — with one tracked-token transfer of 10 tokens and
one unrelated wallet transaction, the code reports an average of 5
(volume 10 over 2 wallet transactions) while the claim's
tracked-transfer average is 10; dropping the unrelated transaction
changes the code's average, so it is not "unaffected by the wallet's
other transactions". -/
theorem c8_average_counterexample :
    averageTransactionSize "W" [cexJpgTx, cexOtherTx] = 5
    ∧ claimAverageTransferSize [cexJpgTx, cexOtherTx] = 10
    ∧ averageTransactionSize "W" [cexJpgTx] = 10
    ∧ averageTransactionSize "W" [cexJpgTx, cexOtherTx]
        ≠ claimAverageTransferSize [cexJpgTx, cexOtherTx] := by
  have h1 : averageTransactionSize "W" [cexJpgTx, cexOtherTx] = 5 := by
    norm_num [averageTransactionSize, walletTransactions, involvesWallet,
      totalVolume, jpgTransactions, isJpgTransaction, txJpgVolume,
      cexJpgTx, cexOtherTx]
  have h2 : claimAverageTransferSize [cexJpgTx, cexOtherTx] = 10 := by
    norm_num [claimAverageTransferSize, cexJpgTx, cexOtherTx]
  have h3 : averageTransactionSize "W" [cexJpgTx] = 10 := by
    norm_num [averageTransactionSize, walletTransactions, involvesWallet,
      totalVolume, jpgTransactions, isJpgTransaction, txJpgVolume, cexJpgTx]
  refine ⟨h1, h2, h3, ?_⟩
  rw [h1, h2]
  norm_num

/-- C8 (amended) — `totalVolume` is derived only from tracked-token
transfers (appending a transaction without tracked transfers leaves it
unchanged), while `averageTransactionSize` divides that volume by the
count of ALL wallet-involving transactions, so each unrelated wallet
transaction enlarges its denominator by one. -/
theorem c8_volume_tracked_only (txs : List Etx) (tx : Etx) (address : String)
    (hnj : ∀ t ∈ tx.tokenTransfers, t.mint ≠ JPG_MINT_STR)
    (hw : involvesWallet address tx = true) :
    totalVolume (txs ++ [tx]) = totalVolume txs
    ∧ (walletTransactions address (txs ++ [tx])).length =
        (walletTransactions address txs).length + 1 := by
  have hnotjpg : isJpgTransaction tx = false := by
    unfold isJpgTransaction
    rw [List.any_eq_false]
    intro t ht
    simpa using hnj t ht
  constructor
  · simp [totalVolume, jpgTransactions, List.filter_append, hnotjpg]
  · simp [walletTransactions, List.filter_append, hw]

/-- Witness for C8 (amended) at the concrete wallet `W`. -/
theorem c8_volume_tracked_only_witness :
    (∀ t ∈ cexOtherTx.tokenTransfers, t.mint ≠ JPG_MINT_STR)
    ∧ involvesWallet "W" cexOtherTx = true
    ∧ totalVolume [cexJpgTx, cexOtherTx] = totalVolume [cexJpgTx]
    ∧ (walletTransactions "W" [cexJpgTx, cexOtherTx]).length =
        (walletTransactions "W" [cexJpgTx]).length + 1 := by
  refine ⟨by decide, by decide, ?_⟩
  exact c8_volume_tracked_only [cexJpgTx] cexOtherTx "W" (by decide) (by decide)

/-! ## Token metadata cache (`getTokenMetadata`, solana.ts lines 27-120) -/

/-- The module-level cache (solana.ts lines 27-28):
`tokenMetadataCache` and `tokenMetadataCacheTime`. -/
structure MetaCacheState where
  cache : Option TokenMetadata
  cacheTime : ℤ
deriving DecidableEq, Repr

/-- `CACHE_DURATION = 5 * 60 * 1000` ms (solana.ts line 29). -/
def CACHE_DURATION : ℤ := 5 * 60 * 1000

/-- Joint outcome of the upstream fetches inside `getTokenMetadata`'s
`try` block: the metadata endpoint returned a usable record (already
shaped by lines 60-71), or it returned an unusable shape and the RPC
supply call succeeded with some `decimals`, or some fetch threw
(everything failed). -/
inductive MetadataUpstream where
  | metaOk (md : TokenMetadata)
  | supplyOk (decimals : ℕ)
  | allFail
deriving DecidableEq, Repr

/-- What one `getTokenMetadata` call produces: the returned record, the
cache state it leaves behind, and whether it issued any upstream
request. -/
structure MetaCallResult where
  returned : TokenMetadata
  state : MetaCacheState
  issuedRequest : Bool
deriving DecidableEq, Repr

/-- The supply-based fallback (solana.ts lines 85-93):
`decimals: tokenInfo.value.decimals || 6` (`0` is falsy). -/
def jpgSupplyFallback (decimals : ℕ) : TokenMetadata :=
  { name := "JPG", symbol := "JPG",
    decimals := if decimals = 0 then 6 else decimals,
    description := some "Jupiter Printing Glitch Token",
    website := some "", logoURI := some "", tags := some [] }

/-- The hardcoded ultimate fallback of the `catch` block (solana.ts
lines 104-112). -/
def ipgHardcodedFallback : TokenMetadata :=
  { name := "IPG", symbol := "IPG", decimals := 6,
    description := some "Jupiter Printing Glitch Token",
    website := some "", logoURI := some "", tags := some [] }

/-- The cache-miss path of `getTokenMetadata` (solana.ts lines 40-119):
each branch caches what it returns with `tokenMetadataCacheTime = now`,
and each issues at least one upstream request. -/
def fetchFreshMetadata (now : ℤ) (up : MetadataUpstream) : MetaCallResult :=
  match up with
  | MetadataUpstream.metaOk md => ⟨md, ⟨some md, now⟩, true⟩
  | MetadataUpstream.supplyOk d =>
    ⟨jpgSupplyFallback d, ⟨some (jpgSupplyFallback d), now⟩, true⟩
  | MetadataUpstream.allFail =>
    ⟨ipgHardcodedFallback, ⟨some ipgHardcodedFallback, now⟩, true⟩

/-- `getTokenMetadata` (solana.ts lines 32-120): return the cached
record without any upstream request while
`tokenMetadataCache && now - tokenMetadataCacheTime < CACHE_DURATION`;
otherwise fetch fresh. -/
def getTokenMetadata (st : MetaCacheState) (now : ℤ) (up : MetadataUpstream) :
    MetaCallResult :=
  match st.cache with
  | some md =>
    if now - st.cacheTime < CACHE_DURATION then ⟨md, st, false⟩
    else fetchFreshMetadata now up
  | none => fetchFreshMetadata now up

/-- C9 — If every upstream fetch fails on a cache-miss call at time
`now`, the call returns the hardcoded fallback and caches it; any call
within the next five minutes (`t - now < CACHE_DURATION`) returns that
same fallback without issuing any upstream request and leaves the
cache unchanged. -/
theorem c9_metadata_failure_cached (st : MetaCacheState) (now t : ℤ)
    (up2 : MetadataUpstream)
    (hmiss : st.cache = none ∨ CACHE_DURATION ≤ now - st.cacheTime)
    (ht : t - now < CACHE_DURATION) :
    getTokenMetadata st now MetadataUpstream.allFail =
      ⟨ipgHardcodedFallback, ⟨some ipgHardcodedFallback, now⟩, true⟩
    ∧ getTokenMetadata ⟨some ipgHardcodedFallback, now⟩ t up2 =
      ⟨ipgHardcodedFallback, ⟨some ipgHardcodedFallback, now⟩, false⟩ := by
  constructor
  · unfold getTokenMetadata
    cases hc : st.cache with
    | none => rfl
    | some md =>
      have hge : CACHE_DURATION ≤ now - st.cacheTime := by
        rcases hmiss with h | h
        · rw [hc] at h; exact absurd h (by simp)
        · exact h
      show (if now - st.cacheTime < CACHE_DURATION
            then (⟨md, st, false⟩ : MetaCallResult)
            else fetchFreshMetadata now MetadataUpstream.allFail) = _
      rw [if_neg (show ¬(now - st.cacheTime < CACHE_DURATION) by omega)]
      rfl
  · show (if t - now < CACHE_DURATION then _ else fetchFreshMetadata t up2) = _
    rw [if_pos ht]

/-- Witness for C9: empty cache at time 100, total upstream failure,
then a second call 299 999 ms later with a working upstream. -/
theorem c9_metadata_failure_cached_witness :
    ((⟨none, 0⟩ : MetaCacheState).cache = none
        ∨ CACHE_DURATION ≤ 100 - (⟨none, 0⟩ : MetaCacheState).cacheTime)
    ∧ (300099 : ℤ) - 100 < CACHE_DURATION
    ∧ getTokenMetadata ⟨none, 0⟩ 100 MetadataUpstream.allFail =
        ⟨ipgHardcodedFallback, ⟨some ipgHardcodedFallback, 100⟩, true⟩
    ∧ getTokenMetadata ⟨some ipgHardcodedFallback, 100⟩ 300099
        (MetadataUpstream.supplyOk 9) =
        ⟨ipgHardcodedFallback, ⟨some ipgHardcodedFallback, 100⟩, false⟩ := by
  have h := c9_metadata_failure_cached ⟨none, 0⟩ 100 300099
    (MetadataUpstream.supplyOk 9) (Or.inl rfl) (by decide)
  exact ⟨Or.inl rfl, by decide, h.1, h.2⟩

/-! ## Top holders (`getTopHolders`, solana.ts lines 828-865) -/

/-- One entry of `getTokenLargestAccounts`'s `value` array; `uiAmount`
may be absent/`null`. -/
structure LargestAccount where
  address : String
  uiAmount : Option ℚ
deriving DecidableEq, Repr

/-- `getTopHolders` success path (solana.ts lines 844-860) as a function
of the two RPC results: `largestAccounts.value`, and the supply's raw
`amount` with its `decimals`.  `slice(0, 25)`, then
`map` returning `null` for accounts with `!account.uiAmount ||
account.uiAmount === 0`, then `filter(h => h !== null)` —
a `filterMap`.  `percentage = (amount / totalSupplyInTokens) * 100`
with `totalSupplyInTokens = totalSupply / 10^decimals`. -/
def getTopHolders (accounts : List LargestAccount) (supplyAmount : ℚ)
    (decimals : ℕ) : List TopHolder :=
  let totalSupplyInTokens := supplyAmount / 10 ^ decimals
  (accounts.take 25).filterMap fun account =>
    match account.uiAmount with
    | none => none
    | some amt =>
      if amt = 0 then none
      else some { address := account.address, amount := amt,
                  percentage := amt / totalSupplyInTokens * 100 }

/-- C10 — `getTopHolders` returns at most 25 holders; provided the
upstream balances are non-negative, every returned holder has a
strictly positive amount, and its percentage is its amount divided by
the total supply in whole tokens, times 100. -/
theorem c10_top_holders (accounts : List LargestAccount) (supplyAmount : ℚ)
    (decimals : ℕ)
    (hpos : ∀ a ∈ accounts, 0 ≤ a.uiAmount.getD 0) :
    (getTopHolders accounts supplyAmount decimals).length ≤ 25
    ∧ ∀ h ∈ getTopHolders accounts supplyAmount decimals,
        0 < h.amount
        ∧ h.percentage = h.amount / (supplyAmount / 10 ^ decimals) * 100 := by
  constructor
  · calc (getTopHolders accounts supplyAmount decimals).length
        ≤ (accounts.take 25).length := List.length_filterMap_le _ _
      _ ≤ 25 := by rw [List.length_take]; exact min_le_left _ _
  · intro h hh
    simp only [getTopHolders] at hh
    obtain ⟨a, ha, hfa⟩ := List.mem_filterMap.mp hh
    have hamem : a ∈ accounts := List.take_subset _ _ ha
    cases hua : a.uiAmount with
    | none => rw [hua] at hfa; exact absurd hfa (by simp)
    | some amt =>
      rw [hua] at hfa
      have hfa' : (if amt = 0 then (none : Option TopHolder)
          else some { address := a.address, amount := amt,
                      percentage := amt / (supplyAmount / 10 ^ decimals) * 100 })
          = some h := hfa
      by_cases hz : amt = 0
      · rw [if_pos hz] at hfa'; exact absurd hfa' (by simp)
      · rw [if_neg hz] at hfa'
        have hrec := Option.some.inj hfa' 
        have h0 : 0 ≤ amt := by
          have := hpos a hamem
          rw [hua] at this
          simpa using this
        constructor
        · rw [← hrec]
          exact lt_of_le_of_ne h0 (Ne.symm hz)
        · rw [← hrec]

/-- Witness for C10: three largest accounts (one with a 40-token
balance, one with no `uiAmount`, one with a zero balance), raw supply
1 000 000 with 4 decimals. -/
theorem c10_top_holders_witness :
    (∀ a ∈ [(⟨"h1", some 40⟩ : LargestAccount), ⟨"h2", none⟩, ⟨"h3", some 0⟩],
        0 ≤ a.uiAmount.getD 0)
    ∧ ((getTopHolders [⟨"h1", some 40⟩, ⟨"h2", none⟩, ⟨"h3", some 0⟩]
          1000000 4).length ≤ 25
      ∧ ∀ h ∈ getTopHolders [⟨"h1", some 40⟩, ⟨"h2", none⟩, ⟨"h3", some 0⟩]
            1000000 4,
          0 < h.amount
          ∧ h.percentage = h.amount / ((1000000 : ℚ) / 10 ^ 4) * 100) :=
  ⟨by decide,
    c10_top_holders [⟨"h1", some 40⟩, ⟨"h2", none⟩, ⟨"h3", some 0⟩]
      1000000 4 (by decide)⟩
